import Mathlib

/-
Shallow embedding of src/src/store/AuthContext.tsx.

The component is a session synchronizer around an external identity
provider and a remote document store.  External effects are made
explicit: the document store is a function from keys to optional
records, and the outcome of each external call (provider call, store
fetch, store write) is passed in as an argument, so every function of
the source becomes a pure Lean function from its inputs and the
outcomes of its external calls to its observable results (new local
state, new store contents, thrown error, log lines, navigation target).
-/

namespace DirectoryAuth

/-- Role of a user; the source type is the union of the string literals
user and admin. -/
inductive Role where
  | user
  | admin
  deriving DecidableEq

/-- Account status; the source type is the union of the string literals
active and suspended. -/
inductive Status where
  | active
  | suspended
  deriving DecidableEq

/-- The published session user, mirroring the User interface of the
source.  Optional TypeScript fields become Option. -/
structure User where
  id : String
  email : Option String
  businessName : Option String
  website : Option String
  role : Role
  status : Status
  deriving DecidableEq

/-- The provider-reported user, mirroring FirebaseUser as consumed by the
source (only uid and email are read). -/
structure FirebaseUser where
  uid : String
  email : Option String
  deriving DecidableEq

/-- A profile record as stored in the users collection of the document
store.  Every field can be absent from a stored document, so all fields
are Option; role and status absent models the userData.role and
userData.status falsy cases that the source defaults. -/
structure UserDoc where
  id : Option String
  email : Option String
  businessName : Option String
  website : Option String
  role : Option Role
  status : Option Status
  createdAt : Option String
  deriving DecidableEq

/-- The users collection of the document store, keyed by uid.  A lookup
returning none models getDoc with no data. -/
def Store := String → Option UserDoc

/-- The local component state: the three useState cells of AuthProvider. -/
structure AuthState where
  user : Option User
  loading : Bool
  initializing : Bool
  deriving DecidableEq

/-- Outcomes of the external calls made while handling one provider
state-change event: whether getDoc throws, whether setDoc throws, and
the timestamp new Date().toISOString() would produce. -/
structure EventEnv where
  fetchFails : Bool
  writeFails : Bool
  now : String
  deriving DecidableEq

/-- Observable result of one run of the subscription callback: the new
local state, the new store contents, and the console.error log lines.
The callback has no thrown-error channel because the source catches
every error inside it. -/
structure CallbackResult where
  state : AuthState
  store : Store
  logs : List String

/-- Errors raised by the external services, per the taxonomy of the
spec: provider rejections and store read/write failures. -/
inductive ExternalError where
  | providerError
  | storeError
  deriving DecidableEq

/-- Observable result of one signup, login or logout call: new local
state, new store contents, the error rethrown to the caller if any, the
navigation target if navigate ran, and the console.error log lines. -/
structure OpResult where
  state : AuthState
  store : Store
  thrown : Option ExternalError
  navigatedTo : Option String
  logs : List String

/-- The onAuthStateChanged callback of AuthProvider (source lines
40 to 77).  ev is the provider-reported user or none; env carries the
outcomes of the getDoc and setDoc calls.  The try block branches on the
event and the fetched record; the catch block logs and sets the user to
none; the finally block clears loading and initializing in every
branch. -/
def handleAuthEvent (st : AuthState) (store : Store)
    (ev : Option FirebaseUser) (env : EventEnv) : CallbackResult :=
  match ev with
  | some firebaseUser =>
    if env.fetchFails then
      { state := { user := none, loading := false, initializing := false },
        store := store,
        logs := ["Error setting up user:"] }
    else
      match store firebaseUser.uid with
      | some userData =>
        let u : User :=
          { id := firebaseUser.uid,
            email := firebaseUser.email,
            businessName := userData.businessName,
            website := userData.website,
            role := userData.role.getD Role.user,
            status := userData.status.getD Status.active }
        { state := { user := some u, loading := false, initializing := false },
          store := store,
          logs := [] }
      | none =>
        if env.writeFails then
          { state := { user := none, loading := false, initializing := false },
            store := store,
            logs := ["Error setting up user:"] }
        else
          let newUser : UserDoc :=
            { id := some firebaseUser.uid,
              email := firebaseUser.email,
              businessName := none,
              website := none,
              role := some Role.user,
              status := some Status.active,
              createdAt := some env.now }
          let u : User :=
            { id := firebaseUser.uid,
              email := firebaseUser.email,
              businessName := none,
              website := none,
              role := Role.user,
              status := Status.active }
          { state := { user := some u, loading := false, initializing := false },
            store := fun k => if k = firebaseUser.uid then some newUser else store k,
            logs := [] }
  | none =>
    { state := { user := none, loading := false, initializing := false },
      store := store,
      logs := [] }

/-- Identity published by the current session: the id of the current
user, or none when the session is absent. -/
def sessionId (st : AuthState) : Option String :=
  st.user.map User.id

/-- Delivery of a sequence of provider state-change events to the
subscription callback, each paired with the outcomes of its external
calls; returns the final local state and store contents. -/
def runEvents (st : AuthState) (store : Store)
    (evs : List (Option FirebaseUser × EventEnv)) : AuthState × Store :=
  evs.foldl (fun p e =>
    let r := handleAuthEvent p.1 p.2 e.1 e.2
    (r.state, r.store)) (st, store)

/-- The signup operation (source lines 82 to 116).  providerRes is the
outcome of createUserWithEmailAndPassword and writeFails whether setDoc
throws; now is the timestamp.  On success it writes the profile record,
installs the session immediately, and navigates; on any failure it logs,
rethrows, and leaves the user untouched; loading is cleared in every
branch by the finally block. -/
def signup (st : AuthState) (store : Store)
    (email password : String) (businessName website : Option String)
    (providerRes : Except ExternalError FirebaseUser)
    (writeFails : Bool) (now : String) : OpResult :=
  match providerRes with
  | Except.error e =>
    { state := { st with loading := false },
      store := store,
      thrown := some e,
      navigatedTo := none,
      logs := ["Signup error:"] }
  | Except.ok firebaseUser =>
    if writeFails then
      { state := { st with loading := false },
        store := store,
        thrown := some ExternalError.storeError,
        navigatedTo := none,
        logs := ["Signup error:"] }
    else
      let userData : UserDoc :=
        { id := none,
          email := firebaseUser.email,
          businessName := businessName,
          website := website,
          role := some Role.user,
          status := some Status.active,
          createdAt := some now }
      let u : User :=
        { id := firebaseUser.uid,
          email := firebaseUser.email,
          businessName := businessName,
          website := website,
          role := Role.user,
          status := Status.active }
      { state := { user := some u, loading := false, initializing := st.initializing },
        store := fun k => if k = firebaseUser.uid then some userData else store k,
        thrown := none,
        navigatedTo := some "/business",
        logs := [] }

/-- The login operation (source lines 118 to 146).  providerRes is the
outcome of signInWithEmailAndPassword and fetchFails whether the getDoc
that follows throws.  On success it fetches the profile record; when the
record exists the session is rebuilt from it, when it does not exist the
source does nothing to the user and still navigates; failures are
logged and rethrown; loading is cleared in every branch. -/
def login (st : AuthState) (store : Store)
    (email password : String)
    (providerRes : Except ExternalError FirebaseUser)
    (fetchFails : Bool) : OpResult :=
  match providerRes with
  | Except.error e =>
    { state := { st with loading := false },
      store := store,
      thrown := some e,
      navigatedTo := none,
      logs := ["Login error:"] }
  | Except.ok firebaseUser =>
    if fetchFails then
      { state := { st with loading := false },
        store := store,
        thrown := some ExternalError.storeError,
        navigatedTo := none,
        logs := ["Login error:"] }
    else
      match store firebaseUser.uid with
      | some userData =>
        let u : User :=
          { id := firebaseUser.uid,
            email := firebaseUser.email,
            businessName := userData.businessName,
            website := userData.website,
            role := userData.role.getD Role.user,
            status := userData.status.getD Status.active }
        { state := { user := some u, loading := false, initializing := st.initializing },
          store := store,
          thrown := none,
          navigatedTo := some "/business",
          logs := [] }
      | none =>
        { state := { st with loading := false },
          store := store,
          thrown := none,
          navigatedTo := some "/business",
          logs := [] }

/-- The logout operation (source lines 148 to 160).  signOutRes is the
outcome of signOut.  On success the user is set to none and navigation
goes to the root; on failure the error is logged and rethrown with the
user untouched; loading is cleared in every branch. -/
def logout (st : AuthState) (store : Store)
    (signOutRes : Except ExternalError Unit) : OpResult :=
  match signOutRes with
  | Except.error e =>
    { state := { st with loading := false },
      store := store,
      thrown := some e,
      navigatedTo := none,
      logs := ["Logout error:"] }
  | Except.ok _ =>
    { state := { user := none, loading := false, initializing := st.initializing },
      store := store,
      thrown := none,
      navigatedTo := some "/",
      logs := [] }

/-- The isAdmin query (source lines 162 to 164): user?.role equals the
admin literal. -/
def isAdmin (st : AuthState) : Bool :=
  match st.user with
  | some u => u.role = Role.admin
  | none => false

/-- The value published through the context to consumers: the session
user and the loading flag (the callable operations are modelled as the
standalone functions above). -/
structure AuthContextValue where
  user : Option User
  loading : Bool
  deriving DecidableEq

/-- The useAuth accessor (source lines 182 to 188): the context is none
outside an AuthProvider, in which case an error is thrown; otherwise the
context value is returned. -/
def useAuth (ctx : Option AuthContextValue) : Except String AuthContextValue :=
  match ctx with
  | none => Except.error "useAuth must be used within an AuthProvider"
  | some c => Except.ok c

/-! Concrete values used by the witness theorems. -/

/-- A demo provider-reported user. -/
def fbDemo : FirebaseUser := { uid := "u1", email := some "a@b.com" }

/-- The empty users collection. -/
def emptyStore : Store := fun _ => none

/-- The component state at mount time. -/
def initialState : AuthState := { user := none, loading := true, initializing := true }

/-- Event environment in which both store calls succeed. -/
def envOK : EventEnv := { fetchFails := false, writeFails := false, now := "t0" }

/-- Event environment in which the record fetch throws. -/
def envFetchFail : EventEnv := { fetchFails := true, writeFails := false, now := "t0" }

/-- A demo stored profile record with role and status absent. -/
def docDemo : UserDoc :=
  { id := none, email := some "a@b.com", businessName := some "Acme",
    website := some "acme.example", role := none, status := none,
    createdAt := some "t0" }

/-- A users collection holding docDemo under the demo uid. -/
def storeWithDoc : Store := fun k => if k = "u1" then some docDemo else none

/-- A demo signed-in published user. -/
def userDemo : User :=
  { id := "u1", email := some "a@b.com", businessName := none,
    website := none, role := Role.admin, status := Status.active }

/-- A component state with a signed-in session. -/
def signedInState : AuthState :=
  { user := some userDemo, loading := false, initializing := false }

/-! Theorems settling the claims. -/

/-- Helper for claim C1: one run of the callback publishes the identity
of the event it handled, provided its store calls succeeded when the
event reported an identity. -/
theorem sessionId_handleAuthEvent (st : AuthState) (store : Store)
    (ev : Option FirebaseUser) (env : EventEnv)
    (h : ∀ fb, ev = some fb → env.fetchFails = false ∧ env.writeFails = false) :
    sessionId (handleAuthEvent st store ev env).state = Option.map FirebaseUser.uid ev := by
  cases ev with
  | none => rfl
  | some fb =>
    obtain ⟨hf, hw⟩ := h fb rfl
    cases hs : store fb.uid with
    | some d => simp [handleAuthEvent, hf, hs, sessionId]
    | none => simp [handleAuthEvent, hf, hs, hw, sessionId]

/-- Claim C1: after the callback for the last of a sequence of provider
state-change events completes, the published Session identity equals
the identity reported by that last event, and is none when the last
event reported no identity; the store calls made while handling the
last event are assumed to succeed (their failure is the subject of
claim C5). -/
theorem session_identity_matches_last_event (st : AuthState) (store : Store)
    (pre : List (Option FirebaseUser × EventEnv))
    (ev : Option FirebaseUser) (env : EventEnv)
    (h : ∀ fb, ev = some fb → env.fetchFails = false ∧ env.writeFails = false) :
    sessionId (runEvents st store (pre ++ [(ev, env)])).1 = Option.map FirebaseUser.uid ev := by
  unfold runEvents
  rw [List.foldl_append]
  simp only [List.foldl_cons, List.foldl_nil]
  exact sessionId_handleAuthEvent _ _ ev env h

/-- Witness for claim C1 at a concrete event sequence. -/
theorem session_identity_matches_last_event_witness :
    sessionId (runEvents initialState emptyStore
      ([(none, envOK)] ++ [(some fbDemo, envOK)])).1 = Option.map FirebaseUser.uid (some fbDemo) :=
  session_identity_matches_last_event initialState emptyStore [(none, envOK)]
    (some fbDemo) envOK (fun _ _ => ⟨rfl, rfl⟩)

/-- Claim C2: when the callback receives an identity and the fetched
record is missing, it writes a default record (role user, status
active, creation timestamp, provider email) to the store under that
identity, and publishes a Session built from that same record. -/
theorem callback_missing_record_creates_default (st : AuthState) (store : Store)
    (fb : FirebaseUser) (env : EventEnv)
    (hf : env.fetchFails = false) (hm : store fb.uid = none)
    (hw : env.writeFails = false) :
    (handleAuthEvent st store (some fb) env).store fb.uid =
      some { id := some fb.uid, email := fb.email, businessName := none,
             website := none, role := some Role.user, status := some Status.active,
             createdAt := some env.now } ∧
    (handleAuthEvent st store (some fb) env).state.user =
      some { id := fb.uid, email := fb.email, businessName := none,
             website := none, role := Role.user, status := Status.active } := by
  constructor <;> simp [handleAuthEvent, hf, hm, hw]

/-- Witness for claim C2 at a concrete identity and empty store. -/
theorem callback_missing_record_creates_default_witness :
    (handleAuthEvent initialState emptyStore (some fbDemo) envOK).store fbDemo.uid =
      some { id := some fbDemo.uid, email := fbDemo.email, businessName := none,
             website := none, role := some Role.user, status := some Status.active,
             createdAt := some envOK.now } ∧
    (handleAuthEvent initialState emptyStore (some fbDemo) envOK).state.user =
      some { id := fbDemo.uid, email := fbDemo.email, businessName := none,
             website := none, role := Role.user, status := Status.active } :=
  callback_missing_record_creates_default initialState emptyStore fbDemo envOK rfl rfl rfl

/-- Claim C3: a successful signup writes a profile record under the new
identity whose businessName and website are the supplied values, with
role user and status active, so an immediate read of that record
returns exactly those fields. -/
theorem signup_roundtrip (st : AuthState) (store : Store)
    (email password : String) (businessName website : Option String)
    (fb : FirebaseUser) (now : String) :
    (signup st store email password businessName website (Except.ok fb) false now).store fb.uid =
      some { id := none, email := fb.email, businessName := businessName,
             website := website, role := some Role.user, status := some Status.active,
             createdAt := some now } := by
  simp [signup]

/-- Claim C4: when the provider rejects a signup or a login, the error
is rethrown to the caller, the published Session is unchanged, and
loading is false after the call. -/
theorem operation_failure_preserves_session (st : AuthState) (store : Store)
    (email password : String) (businessName website : Option String)
    (e : ExternalError) (writeFails fetchFails : Bool) (now : String) :
    ((signup st store email password businessName website (Except.error e) writeFails now).state.user = st.user ∧
     (signup st store email password businessName website (Except.error e) writeFails now).thrown = some e ∧
     (signup st store email password businessName website (Except.error e) writeFails now).state.loading = false) ∧
    ((login st store email password (Except.error e) fetchFails).state.user = st.user ∧
     (login st store email password (Except.error e) fetchFails).thrown = some e ∧
     (login st store email password (Except.error e) fetchFails).state.loading = false) :=
  ⟨⟨rfl, rfl, rfl⟩, ⟨rfl, rfl, rfl⟩⟩

/-- Claim C5: a fetch or write failure inside the callback sets the
Session to none and logs the error (the callback result has no thrown
channel at all, so nothing propagates to a caller), and loading and
initializing are cleared by the callback in every branch, for any
event. -/
theorem callback_failure_swallowed (st : AuthState) (store : Store)
    (ev : Option FirebaseUser) (fb : FirebaseUser) (env : EventEnv)
    (h : env.fetchFails = true ∨ (store fb.uid = none ∧ env.writeFails = true)) :
    ((handleAuthEvent st store ev env).state.loading = false ∧
     (handleAuthEvent st store ev env).state.initializing = false) ∧
    ((handleAuthEvent st store (some fb) env).state.user = none ∧
     (handleAuthEvent st store (some fb) env).logs = ["Error setting up user:"]) := by
  constructor
  · cases ev with
    | none => exact ⟨rfl, rfl⟩
    | some fb2 =>
      by_cases hf : env.fetchFails = true
      · simp [handleAuthEvent, hf]
      · cases hs : store fb2.uid with
        | some d => simp [handleAuthEvent, hf, hs]
        | none =>
          by_cases hw : env.writeFails = true
          · simp [handleAuthEvent, hf, hs, hw]
          · simp [handleAuthEvent, hf, hs, hw]
  · by_cases hf : env.fetchFails = true
    · simp [handleAuthEvent, hf]
    · rcases h with h1 | ⟨h2, h3⟩
      · exact absurd h1 hf
      · simp [handleAuthEvent, hf, h2, h3]

/-- Witness for claim C5 at a concrete failing fetch. -/
theorem callback_failure_swallowed_witness :
    ((handleAuthEvent initialState emptyStore (some fbDemo) envFetchFail).state.loading = false ∧
     (handleAuthEvent initialState emptyStore (some fbDemo) envFetchFail).state.initializing = false) ∧
    ((handleAuthEvent initialState emptyStore (some fbDemo) envFetchFail).state.user = none ∧
     (handleAuthEvent initialState emptyStore (some fbDemo) envFetchFail).logs = ["Error setting up user:"]) :=
  callback_failure_swallowed initialState emptyStore (some fbDemo) fbDemo envFetchFail (Or.inl rfl)

/-- Claim C6: when the callback receives an identity and the fetched
record exists, the published Session is built from the record fields,
with role defaulting to user and status to active when absent. -/
theorem callback_existing_record_builds_session (st : AuthState) (store : Store)
    (fb : FirebaseUser) (env : EventEnv) (d : UserDoc)
    (hf : env.fetchFails = false) (hs : store fb.uid = some d) :
    (handleAuthEvent st store (some fb) env).state.user =
      some { id := fb.uid, email := fb.email, businessName := d.businessName,
             website := d.website, role := d.role.getD Role.user,
             status := d.status.getD Status.active } := by
  simp [handleAuthEvent, hf, hs]

/-- Witness for claim C6 at a concrete store holding a record with role
and status absent. -/
theorem callback_existing_record_builds_session_witness :
    (handleAuthEvent initialState storeWithDoc (some fbDemo) envOK).state.user =
      some { id := fbDemo.uid, email := fbDemo.email, businessName := docDemo.businessName,
             website := docDemo.website, role := docDemo.role.getD Role.user,
             status := docDemo.status.getD Status.active } :=
  callback_existing_record_builds_session initialState storeWithDoc fbDemo envOK docDemo
    rfl (by decide)

/-- Claim C7: when login succeeds at the provider but the profile record
is missing, the published Session is exactly what it was before the
call and no record is created. -/
theorem login_missing_record_keeps_session (st : AuthState) (store : Store)
    (email password : String) (fb : FirebaseUser)
    (hm : store fb.uid = none) :
    (login st store email password (Except.ok fb) false).state.user = st.user ∧
    (login st store email password (Except.ok fb) false).store = store ∧
    (login st store email password (Except.ok fb) false).thrown = none := by
  refine ⟨?_, ?_, ?_⟩ <;> simp [login, hm]

/-- Witness for claim C7 at a concrete identity missing from the store. -/
theorem login_missing_record_keeps_session_witness :
    (login initialState emptyStore "a@b.com" "pw" (Except.ok fbDemo) false).state.user = initialState.user ∧
    (login initialState emptyStore "a@b.com" "pw" (Except.ok fbDemo) false).store = emptyStore ∧
    (login initialState emptyStore "a@b.com" "pw" (Except.ok fbDemo) false).thrown = none :=
  login_missing_record_keeps_session initialState emptyStore "a@b.com" "pw" fbDemo rfl

/-- Claim C8: a logout whose provider call succeeds, from any state with
a signed-in session, leaves the published Session absent, and isAdmin
is then false. -/
theorem logout_success_clears_session (st : AuthState) (store : Store) (u : User)
    (h : st.user = some u) :
    (logout st store (Except.ok ())).state.user = none ∧
    isAdmin (logout st store (Except.ok ())).state = false :=
  ⟨rfl, rfl⟩

/-- Witness for claim C8 at a concrete signed-in state. -/
theorem logout_success_clears_session_witness :
    (logout signedInState emptyStore (Except.ok ())).state.user = none ∧
    isAdmin (logout signedInState emptyStore (Except.ok ())).state = false :=
  logout_success_clears_session signedInState emptyStore userDemo rfl

/-- Claim C9: consuming the context outside an AuthProvider, where the
context is none, yields a thrown error, never a default value. -/
theorem useAuth_outside_provider_fails :
    useAuth none = Except.error "useAuth must be used within an AuthProvider" := rfl

/-- Claim C10: when the provider call inside logout fails, the published
Session equals the Session from before the call, loading is reset to
false, the failure is rethrown, and no navigation happens. -/
theorem logout_failure_keeps_session (st : AuthState) (store : Store) (e : ExternalError) :
    (logout st store (Except.error e)).state.user = st.user ∧
    (logout st store (Except.error e)).state.loading = false ∧
    (logout st store (Except.error e)).thrown = some e ∧
    (logout st store (Except.error e)).navigatedTo = none :=
  ⟨rfl, rfl, rfl, rfl⟩

end DirectoryAuth
